import Mathlib

/-
Verification development for the GeoNarrative Audio Weaver client.

Shallow embedding of the audio decoder, the playback controller and the
generation pipeline of src/App.tsx and the service helpers bundled with it
(generateStoryText, generateSpeech, decodeAndPlay).  Engine time and audio
sample values are modelled as exact rationals; every sample value v / 32768
with v a 16-bit integer is exactly representable as a binary float, so the
rational model is faithful to the Float32Array arithmetic of the source.
-/

/-- Decoded audio buffer as produced by AudioContext.createBuffer in the
source: channel count, sample rate in Hz, and the channel 0 sample data.
The fallback decoder of the source only ever fills channel 0. -/
structure AudioBuffer where
  numChannels : Nat
  sampleRate : Nat
  channelData : List ℚ
  deriving Repr, DecidableEq

/-- Frame count of a buffer, the length of the channel data. -/
def AudioBuffer.frameCount (b : AudioBuffer) : Nat :=
  b.channelData.length

/-- Duration of a buffer in seconds, frameCount / sampleRate, exactly as the
Web Audio duration attribute computes it. -/
def AudioBuffer.duration (b : AudioBuffer) : ℚ :=
  (b.frameCount : ℚ) / (b.sampleRate : ℚ)

/-- Reinterpretation of two consecutive bytes (low byte first) as one 16-bit
little-endian signed integer, exactly what an Int16Array element the source
reads at lines 476 and 482 of App.tsx denotes on a little-endian host. -/
def toInt16LE (lo hi : Nat) : Int :=
  let u := lo + 256 * hi
  if u < 32768 then (u : Int) else (u : Int) - 65536

/-- View of a byte list as 16-bit little-endian signed integers, the
denotation of the Int16Array view built by the fallback decoder.  A trailing
odd byte never reaches this function: the Int16Array constructor rejects an
odd byte length before any element is read (see pcmFallbackDecode). -/
def bytesToInt16 : List Nat → List Int
  | [] => []
  | lo :: hi :: rest => toInt16LE lo hi :: bytesToInt16 rest
  | [_] => []

/-- Little-endian two-byte encoding of one 16-bit signed sample, used to
describe payloads that consist of 16-bit signed samples. -/
def int16ToBytes (v : Int) : List Nat :=
  let u := (v % 65536).toNat
  [u % 256, u / 256]

/-- Little-endian byte encoding of a sample sequence. -/
def encodePCM16 : List Int → List Nat
  | [] => []
  | v :: rest => int16ToBytes v ++ encodePCM16 rest

/-- Fallback PCM decoder of decodeAndPlay (App.tsx lines 471 to 485):
sampleRate 24000, one channel, every Int16Array element divided by 32768.
Two host-level failure modes of the very lines the source executes are part
of the embedding: the ECMAScript Int16Array constructor throws a RangeError
when the byte length of the backing buffer is not a multiple of 2, and
AudioContext.createBuffer throws a NotSupportedError when its length
argument is zero.  Both exceptions propagate out of the catch block of
decodeAndPlay, so the fallback path is fallible. -/
def pcmFallbackDecode (bytes : List Nat) : Except String AudioBuffer :=
  if bytes.length % 2 = 0 then
    let samples := bytesToInt16 bytes
    if samples.length = 0 then
      Except.error "NotSupportedError: createBuffer requires at least one frame"
    else
      Except.ok
        { numChannels := 1
          sampleRate := 24000
          channelData := samples.map (fun v => (v : ℚ) / 32768) }
  else
    Except.error "RangeError: byte length of Int16Array should be a multiple of 2"

/-- decodeAndPlay (App.tsx lines 458 to 486).  The outcome of the standard
container decode (audioContext.decodeAudioData on a copy of the payload) is
an external collaborator and enters as a parameter: some buffer when the
container decode succeeds, none when it rejects and control falls into the
catch block running the manual PCM fallback. -/
def decodeAndPlay (standardDecodeResult : Option AudioBuffer) (bytes : List Nat) :
    Except String AudioBuffer :=
  match standardDecodeResult with
  | some buf => Except.ok buf
  | none => pcmFallbackDecode bytes

/-- Boolean test that a decode outcome is an error. -/
def isErrorResult : Except String AudioBuffer → Bool
  | Except.error _ => true
  | Except.ok _ => false

/-- Truncating integer part, the rounding used by the ECMAScript remainder
operator: toward zero. -/
def jsTrunc (q : ℚ) : Int :=
  if 0 ≤ q then Int.floor q else Int.ceil q

/-- The ECMAScript remainder operator a % b on finite operands with b not
zero: a - b * trunc (a / b).  The playback controller applies it at App.tsx
line 100 with a nonnegative dividend and a positive divisor. -/
def jsMod (a b : ℚ) : ℚ :=
  a - b * (jsTrunc (a / b) : ℚ)

/-- State of the playback controller of App.tsx: the refs
audioBufferRef, audioSourceRef, startTimeRef, pausedAtRef and the isPlaying
flag, together with the engine-side set of source nodes that have been
started and not stopped.  Source nodes are identified by allocation order
(nextId is the next fresh identifier); each entry of activeSources pairs the
node identifier with the offset the node was started at.  A started node
keeps producing output until its playback runs out or stop is called on it,
so activeSources records exactly the simultaneously audible outputs at the
instant of observation.  The AudioContext itself always exists at the call
sites of interest because initAudioContext creates it on demand, so it is
not part of the state. -/
structure PlayerState where
  buffer : Option AudioBuffer
  source : Option Nat
  startTime : ℚ
  pausedAt : ℚ
  isPlaying : Bool
  activeSources : List (Nat × ℚ)
  nextId : Nat
  deriving Repr, DecidableEq

/-- playAudio (App.tsx lines 88 to 116) at engine time t: with no buffer
loaded it returns early; otherwise it creates a fresh source node, starts it
at offset pausedAt % duration, records startTime = t - offset, overwrites
the tracked handle with the fresh node and sets isPlaying.  Faithful to the
source, the previously tracked node is not stopped: it merely stops being
referenced, so it stays among the active sources. -/
def playAudio (t : ℚ) (s : PlayerState) : PlayerState :=
  match s.buffer with
  | none => s
  | some buf =>
    let offset := jsMod s.pausedAt buf.duration
    { s with
      activeSources := (s.nextId, offset) :: s.activeSources
      startTime := t - offset
      source := some s.nextId
      isPlaying := true
      nextId := s.nextId + 1 }

/-- pauseAudio (App.tsx lines 118 to 125) at engine time t: with a tracked
source it stops that node, records pausedAt = t - startTime, clears the
handle and clears isPlaying; otherwise it does nothing. -/
def pauseAudio (t : ℚ) (s : PlayerState) : PlayerState :=
  match s.source with
  | none => s
  | some id =>
    { s with
      activeSources := s.activeSources.filter (fun p => p.1 != id)
      pausedAt := t - s.startTime
      source := none
      isPlaying := false }

/-- stopAudio (App.tsx lines 127 to 134): stops the tracked node when one
exists and clears the handle, then unconditionally resets pausedAt to 0 and
clears isPlaying. -/
def stopAudio (s : PlayerState) : PlayerState :=
  let s1 :=
    match s.source with
    | none => s
    | some id =>
      { s with
        activeSources := s.activeSources.filter (fun p => p.1 != id)
        source := none }
  { s1 with pausedAt := 0, isPlaying := false }

/-- The onended completion callback registered by playAudio (App.tsx lines
107 to 115), firing at engine time t for the buffer it closed over: only
when t - startTime has reached the buffer duration does it treat the signal
as a genuine end of track, clearing isPlaying and resetting pausedAt to 0;
otherwise it leaves the state untouched. -/
def onended (t : ℚ) (buf : AudioBuffer) (s : PlayerState) : PlayerState :=
  if buf.duration ≤ t - s.startTime then
    { s with isPlaying := false, pausedAt := 0 }
  else
    s

/-- Geographic coordinates (types.ts). -/
structure Coordinates where
  latitude : ℚ
  longitude : ℚ
  deriving Repr, DecidableEq

/-- One grounding reference: title and locator URI (types.ts). -/
structure GroundingSource where
  title : String
  uri : String
  deriving Repr, DecidableEq

/-- Result of the text generation stage (types.ts): narrative text plus the
ordered grounding references. -/
structure StoryResponse where
  text : String
  groundingSources : List GroundingSource
  deriving Repr, DecidableEq

/-- The slice of the App component state (types.ts AppState) that the
generation pipeline reads and writes. -/
structure AppState where
  coords : Option Coordinates
  isGenerating : Bool
  storyText : Option String
  groundingSources : List GroundingSource
  error : Option String
  statusMessage : String
  deriving Repr, DecidableEq

/-- The setState call at App.tsx line 145 opening a generation cycle:
isGenerating on, error, storyText and groundingSources reset. -/
def genStartUpdate (a : AppState) : AppState :=
  { a with isGenerating := true, error := none, storyText := none, groundingSources := [] }

/-- The setState call at App.tsx line 149 entering stage 1. -/
def scanningUpdate (a : AppState) : AppState :=
  { a with statusMessage := "Scanning Environment..." }

/-- The setState call at App.tsx lines 152 to 157, applied when the text
response of a cycle resolves: it installs the narrative text and grounding
sources unconditionally; the code carries no cycle identity, so the update
cannot tell a current response from a superseded one. -/
def textArrivedUpdate (story : StoryResponse) (a : AppState) : AppState :=
  { a with
    storyText := some story.text
    groundingSources := story.groundingSources
    statusMessage := "Synthesizing Voice..." }

/-- The setState call at App.tsx line 167 on full success. -/
def readyUpdate (a : AppState) : AppState :=
  { a with isGenerating := false, statusMessage := "Narrative Ready" }

/-- The setState call in the catch block, App.tsx lines 190 to 195, with the
extracted error message. -/
def failUpdate (msg : String) (a : AppState) : AppState :=
  { a with isGenerating := false, error := some msg, statusMessage := "Process Aborted" }

/-- Observable actions of one generation cycle, in the order handleGenerate
performs them: stopping playback, discarding the decoded buffer, the two
network requests, the decode attempt, and the automatic play call. -/
inductive GenEvent where
  | stopPlayback
  | discardBuffer
  | textRequest
  | speechRequest
  | decodeAttempt
  | autoplay
  deriving Repr, DecidableEq

/-- Result of one run of handleGenerate: final component state, final
playback state, and the ordered list of actions the run performed. -/
structure GenOutcome where
  app : AppState
  player : PlayerState
  events : List GenEvent
  deriving Repr, DecidableEq

/-- handleGenerate (App.tsx lines 138 to 197) at engine time t.  The
outcomes of the two remote collaborators enter as parameters: textR is the
result of generateStoryText (stage 1), speechR the result of generateSpeech
as a decoded byte payload (stage 2, the base64 transport being modelled
away), and standardDecodeResult the outcome of the container decode inside
decodeAndPlay (stage 3 then runs the real decoder of this file).  The run:
returns early without coordinates; otherwise stops playback, discards the
decoded buffer, resets the cycle state, and walks the three stages
sequentially, any raising stage sending control to the catch block
(failUpdate) with no later stage attempted.  On success the new buffer is
installed and playAudio is called. -/
def handleGenerate (textR : Except String StoryResponse)
    (speechR : Except String (List Nat)) (standardDecodeResult : Option AudioBuffer)
    (t : ℚ) (a : AppState) (p : PlayerState) : GenOutcome :=
  match a.coords with
  | none => { app := a, player := p, events := [] }
  | some _ =>
    let p1 : PlayerState := { stopAudio p with buffer := none }
    let a1 := scanningUpdate (genStartUpdate a)
    match textR with
    | Except.error msg =>
      { app := failUpdate msg a1
        player := p1
        events := [GenEvent.stopPlayback, GenEvent.discardBuffer, GenEvent.textRequest] }
    | Except.ok story =>
      let a2 := textArrivedUpdate story a1
      match speechR with
      | Except.error msg =>
        { app := failUpdate msg a2
          player := p1
          events := [GenEvent.stopPlayback, GenEvent.discardBuffer, GenEvent.textRequest,
            GenEvent.speechRequest] }
      | Except.ok bytes =>
        match decodeAndPlay standardDecodeResult bytes with
        | Except.error msg =>
          { app := failUpdate msg a2
            player := p1
            events := [GenEvent.stopPlayback, GenEvent.discardBuffer, GenEvent.textRequest,
              GenEvent.speechRequest, GenEvent.decodeAttempt] }
        | Except.ok buf =>
          { app := readyUpdate a2
            player := playAudio t { p1 with buffer := some buf }
            events := [GenEvent.stopPlayback, GenEvent.discardBuffer, GenEvent.textRequest,
              GenEvent.speechRequest, GenEvent.decodeAttempt, GenEvent.autoplay] }

/-- The message of the first failing stage of a cycle, none when every stage
succeeds; mirrors the short-circuit order of handleGenerate. -/
def stageFailure (textR : Except String StoryResponse)
    (speechR : Except String (List Nat))
    (standardDecodeResult : Option AudioBuffer) : Option String :=
  match textR with
  | Except.error m => some m
  | Except.ok _ =>
    match speechR with
    | Except.error m => some m
    | Except.ok bytes =>
      match decodeAndPlay standardDecodeResult bytes with
      | Except.error m => some m
      | Except.ok _ => none

/-- One grounding chunk of the text service response, the tagged union the
source inspects at App.tsx lines 407 to 417: a web citation, a maps
citation whose title may be absent, or an unrecognized shape. -/
inductive GroundingChunk where
  | web (title uri : String)
  | maps (title : Option String) (uri : String)
  | other
  deriving Repr, DecidableEq

/-- The successfully resolved response of the text collaborator as
generateStoryText reads it: the text accessor (absent when the model
returned no text) and the grounding chunks (absent when no grounding
metadata came back). -/
structure GenContentResponse where
  text : Option String
  chunks : Option (List GroundingChunk)
  deriving Repr, DecidableEq

/-- ECMAScript logical-or on an optional string against a default: the
default is taken when the value is absent or the empty string, both falsy. -/
def jsOrString (s : Option String) (d : String) : String :=
  match s with
  | none => d
  | some t => if t = "" then d else t

/-- Normalization of grounding chunks into grounding sources, App.tsx lines
406 to 418: web chunks keep title and uri, maps chunks default an absent or
empty title to Map Location, unrecognized chunks are dropped. -/
def extractGroundingSources : List GroundingChunk → List GroundingSource
  | [] => []
  | GroundingChunk.web t u :: rest =>
    { title := t, uri := u } :: extractGroundingSources rest
  | GroundingChunk.maps t u :: rest =>
    { title := jsOrString t "Map Location", uri := u } :: extractGroundingSources rest
  | GroundingChunk.other :: rest => extractGroundingSources rest

/-- generateStoryText (App.tsx lines 362 to 425) given the outcome of the
remote call: a transport failure is caught and rethrown with the fixed
narrative-connection message; a resolved response yields the response text,
with the fixed weak-signal fallback when the text is absent or empty, and
the normalized grounding sources. -/
def generateStoryText (resp : Except String GenContentResponse) :
    Except String StoryResponse :=
  match resp with
  | Except.error _ =>
    Except.error
      "Failed to weave the narrative thread. The connection to the neural net was interrupted."
  | Except.ok r =>
    Except.ok
      { text := jsOrString r.text "The signal is weak... I cannot weave a story right now."
        groundingSources :=
          match r.chunks with
          | none => []
          | some cs => extractGroundingSources cs }

/-- A small loaded buffer for concrete evaluation: one channel, 24000 Hz,
three zero frames, duration 1/8000 second. -/
def demoBuffer : AudioBuffer :=
  { numChannels := 1, sampleRate := 24000, channelData := [0, 0, 0] }

/-- A stopped player with demoBuffer loaded. -/
def demoState : PlayerState :=
  { buffer := some demoBuffer
    source := none
    startTime := 0
    pausedAt := 0
    isPlaying := false
    activeSources := []
    nextId := 0 }

/-- A paused player with demoBuffer loaded and a paused offset strictly
inside the buffer duration. -/
def pausedDemoState : PlayerState :=
  { demoState with pausedAt := 1 / 16000 }

/-- A player paused past the end of demoBuffer. -/
def overDemoState : PlayerState :=
  { demoState with pausedAt := 1 }

/-- A component state with a geolocation fix, as after the ready transition
of the geolocation effect. -/
def demoAppState : AppState :=
  { coords := some { latitude := 0, longitude := 0 }
    isGenerating := false
    storyText := none
    groundingSources := []
    error := none
    statusMessage := "Ready to Weave" }

/-- Byte length of the encoding of a sample sequence. -/
theorem encodePCM16_length (vs : List Int) :
    (encodePCM16 vs).length = 2 * vs.length := by
  induction vs with
  | nil => rfl
  | cons v rest ih =>
    simp only [encodePCM16, int16ToBytes, List.length_append, List.length_cons,
      List.length_nil, ih]
    omega

/-- Round trip of one in-range sample through the byte encoding. -/
theorem toInt16LE_roundtrip (v : Int) (rest : List Nat)
    (h1 : -32768 ≤ v) (h2 : v < 32768) :
    bytesToInt16 (int16ToBytes v ++ rest) = v :: bytesToInt16 rest := by
  have hb : int16ToBytes v =
      [((v % 65536).toNat) % 256, ((v % 65536).toNat) / 256] := rfl
  rw [hb]
  simp only [List.cons_append, List.nil_append, bytesToInt16]
  congr 1
  simp only [toInt16LE]
  split <;> omega

/-- Round trip of an in-range sample sequence through the byte encoding. -/
theorem bytesToInt16_encode (vs : List Int)
    (h : ∀ v ∈ vs, -32768 ≤ v ∧ v < 32768) :
    bytesToInt16 (encodePCM16 vs) = vs := by
  induction vs with
  | nil => rfl
  | cons v rest ih =>
    have hv := h v (by simp)
    have hr : ∀ x ∈ rest, -32768 ≤ x ∧ x < 32768 := fun x hx => h x (by simp [hx])
    simp only [encodePCM16]
    rw [toInt16LE_roundtrip v (encodePCM16 rest) hv.1 hv.2, ih hr]

/-- C2 (amended): for every payload that fails the standard container decode
and consists of N 16-bit little-endian signed samples with N at least 1, the
fallback PCM decode returns a single-channel 24000 Hz buffer of exactly
floor(payload byte length / 2) = N frames whose frame i equals v i / 32768
exactly.  (The empty payload, N = 0, instead raises out of createBuffer, see
the counterexample.) -/
theorem pcm_fallback_roundtrip (vs : List Int) (hne : vs ≠ [])
    (hrange : ∀ v ∈ vs, -32768 ≤ v ∧ v < 32768) :
    decodeAndPlay none (encodePCM16 vs) =
      Except.ok
        { numChannels := 1
          sampleRate := 24000
          channelData := vs.map (fun v => (v : ℚ) / 32768) } ∧
    (encodePCM16 vs).length / 2 = vs.length := by
  have hdec := bytesToInt16_encode vs hrange
  have hlen := encodePCM16_length vs
  constructor
  · have h2 : (encodePCM16 vs).length % 2 = 0 := by omega
    have h0 : (bytesToInt16 (encodePCM16 vs)).length ≠ 0 := by
      rw [hdec]
      simpa using hne
    show pcmFallbackDecode (encodePCM16 vs) = _
    rw [pcmFallbackDecode, if_pos h2]
    simp only [hdec]
    rw [if_neg (by rw [hdec] at h0; exact h0)]
  · omega

/-- C2 witness: the two-sample payload with values 1 and -32768. -/
theorem pcm_fallback_roundtrip_witness :
    decodeAndPlay none (encodePCM16 [(1 : Int), -32768]) =
      Except.ok
        { numChannels := 1
          sampleRate := 24000
          channelData := [(1 : Int), -32768].map (fun v => (v : ℚ) / 32768) } ∧
    (encodePCM16 [(1 : Int), -32768]).length / 2 = [(1 : Int), -32768].length :=
  pcm_fallback_roundtrip [1, -32768] (by decide) (by decide)

/-- C2 counterexample: the empty payload consists of N = 0 samples, yet the
fallback does not return a zero-frame buffer; createBuffer rejects a zero
length and the error propagates. -/
theorem pcm_fallback_empty_counterexample :
    decodeAndPlay none (encodePCM16 []) =
      Except.error "NotSupportedError: createBuffer requires at least one frame" := rfl

/-- C3 (amended): an empty or odd-byte-length payload on the fallback PCM
path raises rather than yielding a zero- or near-zero-frame buffer: an odd
byte length is rejected by the Int16Array constructor with a RangeError, and
the empty payload is rejected by createBuffer with a NotSupportedError. -/
theorem pcm_fallback_degenerate_raises (bytes : List Nat)
    (h : bytes = [] ∨ bytes.length % 2 = 1) :
    isErrorResult (decodeAndPlay none bytes) = true := by
  cases h with
  | inl he => subst he; rfl
  | inr ho =>
    show isErrorResult (pcmFallbackDecode bytes) = true
    rw [pcmFallbackDecode, if_neg (by omega)]
    rfl

/-- C3 witness: the one-byte payload. -/
theorem pcm_fallback_degenerate_raises_witness :
    isErrorResult (decodeAndPlay none [0]) = true :=
  pcm_fallback_degenerate_raises [0] (Or.inr rfl)

/-- C3 counterexample: the one-byte payload raises a RangeError out of the
fallback path instead of returning a truncated zero-frame buffer. -/
theorem pcm_fallback_odd_counterexample :
    decodeAndPlay none [0] =
      Except.error "RangeError: byte length of Int16Array should be a multiple of 2" := rfl

/-- The truncating integer part agrees with the floor on nonnegative input. -/
theorem jsTrunc_of_nonneg (q : ℚ) (h : 0 ≤ q) : jsTrunc q = Int.floor q := by
  simp [jsTrunc, h]

/-- The remainder of a nonnegative dividend by a positive divisor is
nonnegative. -/
theorem jsMod_nonneg (a b : ℚ) (ha : 0 ≤ a) (hb : 0 < b) : 0 ≤ jsMod a b := by
  have hq : 0 ≤ a / b := div_nonneg ha hb.le
  have hfl : ((Int.floor (a / b) : Int) : ℚ) ≤ a / b := Int.floor_le _
  have hmul : b * ((Int.floor (a / b) : Int) : ℚ) ≤ b * (a / b) :=
    mul_le_mul_of_nonneg_left hfl hb.le
  have hba : b * (a / b) = a := by field_simp
  rw [jsMod, jsTrunc_of_nonneg _ hq]
  linarith

/-- The remainder of a nonnegative dividend by a positive divisor is below
the divisor. -/
theorem jsMod_lt (a b : ℚ) (ha : 0 ≤ a) (hb : 0 < b) : jsMod a b < b := by
  have hq : 0 ≤ a / b := div_nonneg ha hb.le
  have hfl : a / b < ((Int.floor (a / b) : Int) : ℚ) + 1 := Int.lt_floor_add_one _
  have hmul : b * (a / b) < b * (((Int.floor (a / b) : Int) : ℚ) + 1) :=
    mul_lt_mul_of_pos_left hfl hb
  have hba : b * (a / b) = a := by field_simp
  have hexp : b * (((Int.floor (a / b) : Int) : ℚ) + 1) =
      b * ((Int.floor (a / b) : Int) : ℚ) + b := by ring
  rw [jsMod, jsTrunc_of_nonneg _ hq]
  linarith

/-- The remainder operator is the identity strictly inside one period. -/
theorem jsMod_eq_of_lt (a b : ℚ) (h0 : 0 ≤ a) (h1 : a < b) : jsMod a b = a := by
  have hb : 0 < b := lt_of_le_of_lt h0 h1
  have hq0 : 0 ≤ a / b := div_nonneg h0 hb.le
  have hq1 : a / b < 1 := (div_lt_one hb).mpr h1
  have hfz : Int.floor (a / b) = 0 := by
    rw [Int.floor_eq_zero_iff, Set.mem_Ico]
    exact ⟨hq0, hq1⟩
  rw [jsMod, jsTrunc_of_nonneg _ hq0, hfz]
  push_cast
  ring

/-- C1 counterexample: from a stopped player with a loaded buffer, two
consecutive playAudio calls with no intervening pauseAudio or stopAudio
leave two source nodes started and not stopped, hence two simultaneously
active outputs; the claimed bound of at most one active output is violated. -/
theorem play_twice_two_active_outputs :
    (playAudio 0 (playAudio 0 demoState)).activeSources.length = 2 ∧
    ¬ (playAudio 0 (playAudio 0 demoState)).activeSources.length ≤ 1 := by
  decide

/-- C1 (amended): a second playAudio call without an intervening pauseAudio
or stopAudio supersedes the tracked handle, so the controller tracks at most
one handle, but it does not tear down the prior output: the new node is
pushed onto the still intact list of active sources, so the previously
started output remains active alongside the new one. -/
theorem play_supersedes_handle_keeps_output (s : PlayerState) (t : ℚ)
    (buf : AudioBuffer) (h : s.buffer = some buf) :
    (playAudio t s).source = some s.nextId ∧
    (playAudio t s).activeSources =
      (s.nextId, jsMod s.pausedAt buf.duration) :: s.activeSources := by
  simp [playAudio, h]

/-- C1 witness: the second call on the already playing demo player. -/
theorem play_supersedes_handle_keeps_output_witness :
    (playAudio 0 (playAudio 0 demoState)).source = some (playAudio 0 demoState).nextId ∧
    (playAudio 0 (playAudio 0 demoState)).activeSources =
      ((playAudio 0 demoState).nextId,
        jsMod (playAudio 0 demoState).pausedAt demoBuffer.duration) ::
        (playAudio 0 demoState).activeSources :=
  play_supersedes_handle_keeps_output (playAudio 0 demoState) 0 demoBuffer (by decide)

/-- C4: for every nonnegative pausedAt, including values at or past the
buffer duration, playAudio starts the fresh source at offset
pausedAt % duration, records startTime = t - offset, and that offset lies in
the interval from 0 inclusive to the duration exclusive, so resuming past
the end restarts from the beginning modulo the duration. -/
theorem play_resume_offset_mod_duration (s : PlayerState) (t : ℚ)
    (buf : AudioBuffer) (h : s.buffer = some buf) (hp : 0 ≤ s.pausedAt)
    (hd : 0 < buf.duration) :
    (playAudio t s).startTime = t - jsMod s.pausedAt buf.duration ∧
    (playAudio t s).activeSources.head? =
      some (s.nextId, jsMod s.pausedAt buf.duration) ∧
    0 ≤ jsMod s.pausedAt buf.duration ∧
    jsMod s.pausedAt buf.duration < buf.duration := by
  refine ⟨?_, ?_, jsMod_nonneg _ _ hp hd, jsMod_lt _ _ hp hd⟩
  · simp [playAudio, h]
  · simp [playAudio, h]

/-- C4 witness: resuming at pausedAt = 1, past the 1/8000 second duration of
the demo buffer. -/
theorem play_resume_offset_mod_duration_witness :
    (playAudio 2 overDemoState).startTime =
      2 - jsMod overDemoState.pausedAt demoBuffer.duration ∧
    (playAudio 2 overDemoState).activeSources.head? =
      some (overDemoState.nextId, jsMod overDemoState.pausedAt demoBuffer.duration) ∧
    0 ≤ jsMod overDemoState.pausedAt demoBuffer.duration ∧
    jsMod overDemoState.pausedAt demoBuffer.duration < demoBuffer.duration :=
  play_resume_offset_mod_duration overDemoState 2 demoBuffer (by decide) (by decide)
    (by norm_num [demoBuffer, AudioBuffer.duration, AudioBuffer.frameCount])

/-- C5: for every pausedAt in the interval from 0 inclusive to the duration
exclusive, playAudio immediately followed by pauseAudio at the same engine
time leaves pausedAt unchanged. -/
theorem play_pause_zero_elapsed_identity (s : PlayerState) (t : ℚ)
    (buf : AudioBuffer) (h : s.buffer = some buf) (h0 : 0 ≤ s.pausedAt)
    (h1 : s.pausedAt < buf.duration) :
    (pauseAudio t (playAudio t s)).pausedAt = s.pausedAt := by
  have hm := jsMod_eq_of_lt s.pausedAt buf.duration h0 h1
  simp [playAudio, pauseAudio, h, hm]

/-- C5 witness: the paused demo player, pausedAt = 1/16000 against a
duration of 1/8000. -/
theorem play_pause_zero_elapsed_identity_witness :
    (pauseAudio 3 (playAudio 3 pausedDemoState)).pausedAt = pausedDemoState.pausedAt :=
  play_pause_zero_elapsed_identity pausedDemoState 3 demoBuffer (by decide)
    (by norm_num [pausedDemoState, demoState])
    (by norm_num [pausedDemoState, demoState, demoBuffer, AudioBuffer.duration,
      AudioBuffer.frameCount])

/-- C6: the completion callback treats a completion signal as a genuine end
of track, clearing isPlaying and resetting pausedAt to 0, exactly when the
elapsed engine time t - startTime has reached the buffer duration; a
spurious signal with smaller elapsed time leaves the state, and in
particular the paused offset, untouched. -/
theorem onended_genuine_vs_spurious (t : ℚ) (buf : AudioBuffer) (s : PlayerState) :
    (buf.duration ≤ t - s.startTime →
      onended t buf s = { s with isPlaying := false, pausedAt := 0 }) ∧
    (t - s.startTime < buf.duration → onended t buf s = s) := by
  constructor
  · intro h
    simp [onended, h]
  · intro h
    simp [onended, not_le.mpr h]

/-- C6 witness: a genuine completion at engine time 1 on the stopped demo
player, and a spurious completion at engine time 0 on the paused demo
player, whose paused offset 1/16000 survives. -/
theorem onended_genuine_vs_spurious_witness :
    onended 1 demoBuffer demoState = { demoState with isPlaying := false, pausedAt := 0 } ∧
    onended 0 demoBuffer pausedDemoState = pausedDemoState :=
  ⟨(onended_genuine_vs_spurious 1 demoBuffer demoState).1
      (by norm_num [demoBuffer, AudioBuffer.duration, AudioBuffer.frameCount, demoState]),
    (onended_genuine_vs_spurious 0 demoBuffer pausedDemoState).2
      (by norm_num [demoBuffer, AudioBuffer.duration, AudioBuffer.frameCount,
        pausedDemoState, demoState])⟩

/-- C7: whenever coordinates are available, a handleGenerate run performs
the playback stop and the buffer discard as its first two actions, before
the first network request of the new cycle, regardless of whether playback
was active; and the prior decoded buffer never survives the run: the final
buffer is the newly decoded one on full success and null otherwise. -/
theorem generate_stops_and_discards_before_network
    (textR : Except String StoryResponse) (speechR : Except String (List Nat))
    (standardDecodeResult : Option AudioBuffer) (t : ℚ) (a : AppState)
    (p : PlayerState) (c : Coordinates) (h : a.coords = some c) :
    (handleGenerate textR speechR standardDecodeResult t a p).events.take 3 =
      [GenEvent.stopPlayback, GenEvent.discardBuffer, GenEvent.textRequest] ∧
    (handleGenerate textR speechR standardDecodeResult t a p).player.buffer =
      (match textR, speechR with
        | Except.ok _, Except.ok bytes =>
          (decodeAndPlay standardDecodeResult bytes).toOption
        | _, _ => none) := by
  cases textR with
  | error m => simp [handleGenerate, h]
  | ok story =>
    cases speechR with
    | error m => simp [handleGenerate, h]
    | ok bytes =>
      cases hdec : decodeAndPlay standardDecodeResult bytes with
      | error m => simp [handleGenerate, h, hdec, Except.toOption]
      | ok buf => simp [handleGenerate, h, hdec, playAudio, Except.toOption]

/-- C7 witness: a fully successful cycle started on the paused demo player. -/
theorem generate_stops_and_discards_before_network_witness :
    (handleGenerate (Except.ok { text := "story", groundingSources := [] })
        (Except.ok (encodePCM16 [5])) (some demoBuffer) 0 demoAppState
        pausedDemoState).events.take 3 =
      [GenEvent.stopPlayback, GenEvent.discardBuffer, GenEvent.textRequest] ∧
    (handleGenerate (Except.ok { text := "story", groundingSources := [] })
        (Except.ok (encodePCM16 [5])) (some demoBuffer) 0 demoAppState
        pausedDemoState).player.buffer =
      (decodeAndPlay (some demoBuffer) (encodePCM16 [5])).toOption := by
  exact generate_stops_and_discards_before_network
    (Except.ok { text := "story", groundingSources := [] })
    (Except.ok (encodePCM16 [5])) (some demoBuffer) 0 demoAppState pausedDemoState
    { latitude := 0, longitude := 0 } rfl

/-- C8: in every cycle in which some stage fails, the run ends in the failed
state carrying the reason of the first failing stage (error set, status
Process Aborted), the in-flight flag is cleared so the user may retry, no
stage after the failing one is attempted, the narrative text produced by
stage 1 remains installed when stage 1 succeeded, and it remains null when
stage 1 itself failed. -/
theorem generate_failure_handling
    (textR : Except String StoryResponse) (speechR : Except String (List Nat))
    (standardDecodeResult : Option AudioBuffer) (t : ℚ) (a : AppState)
    (p : PlayerState) (c : Coordinates) (msg : String) (h : a.coords = some c)
    (hf : stageFailure textR speechR standardDecodeResult = some msg) :
    (handleGenerate textR speechR standardDecodeResult t a p).app.error = some msg ∧
    (handleGenerate textR speechR standardDecodeResult t a p).app.isGenerating = false ∧
    (handleGenerate textR speechR standardDecodeResult t a p).app.statusMessage =
      "Process Aborted" ∧
    (handleGenerate textR speechR standardDecodeResult t a p).app.storyText =
      (match textR with
        | Except.error _ => none
        | Except.ok story => some story.text) ∧
    (handleGenerate textR speechR standardDecodeResult t a p).events =
      (match textR, speechR with
        | Except.error _, _ =>
          [GenEvent.stopPlayback, GenEvent.discardBuffer, GenEvent.textRequest]
        | Except.ok _, Except.error _ =>
          [GenEvent.stopPlayback, GenEvent.discardBuffer, GenEvent.textRequest,
            GenEvent.speechRequest]
        | Except.ok _, Except.ok _ =>
          [GenEvent.stopPlayback, GenEvent.discardBuffer, GenEvent.textRequest,
            GenEvent.speechRequest, GenEvent.decodeAttempt]) := by
  cases textR with
  | error m =>
    simp only [stageFailure, Option.some.injEq] at hf
    subst hf
    simp [handleGenerate, h, failUpdate, scanningUpdate, genStartUpdate]
  | ok story =>
    cases speechR with
    | error m =>
      simp only [stageFailure, Option.some.injEq] at hf
      subst hf
      simp [handleGenerate, h, failUpdate, scanningUpdate, genStartUpdate,
        textArrivedUpdate]
    | ok bytes =>
      cases hdec : decodeAndPlay standardDecodeResult bytes with
      | error m =>
        simp only [stageFailure, hdec, Option.some.injEq] at hf
        subst hf
        simp [handleGenerate, h, hdec, failUpdate, scanningUpdate, genStartUpdate,
          textArrivedUpdate]
      | ok buf => simp [stageFailure, hdec] at hf

/-- C8 witness: stage 1 fails with the narrative-connection message while
the later stage inputs would have succeeded; the cycle ends failed, the
flag is cleared, the text stays null, and only the text request happened. -/
theorem generate_failure_handling_witness :
    (handleGenerate
        (Except.error
          "Failed to weave the narrative thread. The connection to the neural net was interrupted.")
        (Except.ok (encodePCM16 [5])) (some demoBuffer) 0 demoAppState
        demoState).app.error =
      some
        "Failed to weave the narrative thread. The connection to the neural net was interrupted." ∧
    (handleGenerate
        (Except.error
          "Failed to weave the narrative thread. The connection to the neural net was interrupted.")
        (Except.ok (encodePCM16 [5])) (some demoBuffer) 0 demoAppState
        demoState).app.isGenerating = false ∧
    (handleGenerate
        (Except.error
          "Failed to weave the narrative thread. The connection to the neural net was interrupted.")
        (Except.ok (encodePCM16 [5])) (some demoBuffer) 0 demoAppState
        demoState).app.statusMessage = "Process Aborted" ∧
    (handleGenerate
        (Except.error
          "Failed to weave the narrative thread. The connection to the neural net was interrupted.")
        (Except.ok (encodePCM16 [5])) (some demoBuffer) 0 demoAppState
        demoState).app.storyText = none ∧
    (handleGenerate
        (Except.error
          "Failed to weave the narrative thread. The connection to the neural net was interrupted.")
        (Except.ok (encodePCM16 [5])) (some demoBuffer) 0 demoAppState
        demoState).events =
      [GenEvent.stopPlayback, GenEvent.discardBuffer, GenEvent.textRequest] := by
  simpa using generate_failure_handling
    (Except.error
      "Failed to weave the narrative thread. The connection to the neural net was interrupted.")
    (Except.ok (encodePCM16 [5])) (some demoBuffer) 0 demoAppState demoState
    { latitude := 0, longitude := 0 }
    "Failed to weave the narrative thread. The connection to the neural net was interrupted."
    rfl rfl

/-- C9 counterexample: the state updates of a cycle carry no sequence
number, so a late response of a superseded cycle is applied rather than
discarded.  Cooperative interleaving of two overlapping runs of
handleGenerate: cycle 1 starts (its two synchronous setState calls run),
cycle 2 starts likewise, the text response of cycle 2 resolves and installs
fresh, then the stale text response of cycle 1 resolves late: the final
narrative text is the stale one, overwriting the newer result. -/
theorem stale_response_overwrites_counterexample :
    (textArrivedUpdate { text := "stale", groundingSources := [] }
        (textArrivedUpdate { text := "fresh", groundingSources := [] }
          (scanningUpdate (genStartUpdate
            (scanningUpdate (genStartUpdate demoAppState)))))).storyText =
      some "stale" := rfl

/-- C9 (amended): generation cycles are not tagged with sequence numbers;
the update applied when a text response resolves installs the response
unconditionally, so a response belonging to a superseded cycle overwrites
the current narrative result and grounding sources whenever it resolves
after the newer one.  Overlapping cycles are prevented only by the UI
disabling the generation action while the in-flight flag is set. -/
theorem stale_text_update_applies_unconditionally (staleStory freshStory : StoryResponse)
    (a : AppState) :
    (textArrivedUpdate staleStory (textArrivedUpdate freshStory a)).storyText =
      some staleStory.text ∧
    (textArrivedUpdate staleStory (textArrivedUpdate freshStory a)).groundingSources =
      staleStory.groundingSources :=
  ⟨rfl, rfl⟩

/-- C10: a successfully resolved text response carrying absent or empty
narrative text does not make generateStoryText fail: the result is the
fixed weak-signal fallback string together with whatever grounding
references the response contained. -/
theorem empty_text_fallback (r : GenContentResponse)
    (h : r.text = none ∨ r.text = some "") :
    generateStoryText (Except.ok r) =
      Except.ok
        { text := "The signal is weak... I cannot weave a story right now."
          groundingSources :=
            match r.chunks with
            | none => []
            | some cs => extractGroundingSources cs } := by
  cases h with
  | inl h => simp [generateStoryText, jsOrString, h]
  | inr h => simp [generateStoryText, jsOrString, h]

/-- C10 witness: a response with absent text and one web chunk, one
title-less maps chunk and one unrecognized chunk. -/
theorem empty_text_fallback_witness :
    generateStoryText
        (Except.ok
          { text := none
            chunks := some [GroundingChunk.web "Golden Gate Park" "https://example.org/park",
              GroundingChunk.maps none "https://example.org/map", GroundingChunk.other] }) =
      Except.ok
        { text := "The signal is weak... I cannot weave a story right now."
          groundingSources :=
            [{ title := "Golden Gate Park", uri := "https://example.org/park" },
              { title := "Map Location", uri := "https://example.org/map" }] } := by
  simpa [extractGroundingSources, jsOrString] using empty_text_fallback
    { text := none
      chunks := some [GroundingChunk.web "Golden Gate Park" "https://example.org/park",
        GroundingChunk.maps none "https://example.org/map", GroundingChunk.other] }
    (Or.inl rfl)
